import Mathlib

/-!
Shallow embedding of the client-side view controller and related features of
`src/script.js` (single-page portfolio site), together with proofs of the
specified properties.

The DOM-visible state that the script mutates (which view sections and nav
items carry the CSS class `active`, the history stack of the address bar, the
scroll position) is modelled explicitly; each top-level function of the script
becomes a Lean function on that state, and the side effects it issues (class
toggles, `history.replaceState`, `window.scrollTo`, animation requests,
`ScrollTrigger.refresh`) are additionally recorded as an ordered trace of
events so that ordering guarantees can be stated.
-/

namespace Portfolio

/-- The static markup: which view-section ids (`view-<id>`) and nav-link ids
(`link-<id>`) exist on the page.  `getElementById ('view-' + x)` succeeds
exactly when `x ∈ views`. -/
structure Page where
  views : List String
  navLinks : List String
deriving DecidableEq

/-- One observable side effect issued by `showView` (src/script.js lines
21-47), in the order the script issues them. -/
inductive Effect where
  /-- line 21: remove class `active` from every `.view-section` -/
  | deactivateViews
  /-- line 22: remove class `active` from every `.nav-item` -/
  | deactivateNavs
  /-- line 31: `targetView.classList.add('active')` -/
  | activateView (id : String)
  /-- line 32: `targetLink.classList.add('active')` -/
  | activateNav (id : String)
  /-- line 35: `window.history.replaceState(null, null, '#' + viewId)` -/
  | replaceHash (id : String)
  /-- line 38: `window.scrollTo(0, 0)` -/
  | scrollTop
  /-- line 41: `gsap.from(targetView, ...)` entrance animation -/
  | entranceAnim (id : String)
  /-- line 44: `animateBadge()` (the transition hook for the about view) -/
  | badgeAnim
  /-- line 47: `ScrollTrigger.refresh()` -/
  | refreshTriggers
deriving DecidableEq

/-- The mutable DOM-visible state the view controller touches.
`history` is the browser history stack, most recent entry first; each entry is
represented by its fragment (`none` = no fragment in that entry's URL). -/
structure St where
  activeViews : List String
  activeNavs : List String
  history : List (Option String)
  scrollY : Int
deriving DecidableEq

/-- `showView` (src/script.js lines 19-49), returning the updated state and
the ordered trace of effects the call issues.  Faithful to the source: the
two `classList.remove('active')` sweeps run before the existence check on the
target view, and every later effect is guarded by `if (targetView)`. -/
def showView (pg : Page) (viewId : String) (st : St) : St × List Effect :=
  -- lines 21-22: unconditional deactivation sweeps
  let st1 : St := { st with activeViews := [] }
  let st2 : St := { st1 with activeNavs := [] }
  let tr2 : List Effect := [Effect.deactivateViews, Effect.deactivateNavs]
  -- lines 25-26: getElementById lookups
  if pg.views.contains viewId then
    -- line 31
    let st3 : St := { st2 with activeViews := viewId :: st2.activeViews }
    let tr3 := tr2 ++ [Effect.activateView viewId]
    -- line 32: `if (targetLink)`
    let st4 : St :=
      if pg.navLinks.contains viewId then
        { st3 with activeNavs := viewId :: st3.activeNavs }
      else st3
    let tr4 :=
      if pg.navLinks.contains viewId then tr3 ++ [Effect.activateNav viewId]
      else tr3
    -- line 35: replaceState swaps the current history entry, pushing nothing
    let st5 : St := { st4 with history := some viewId :: st4.history.tail }
    let tr5 := tr4 ++ [Effect.replaceHash viewId]
    -- line 38
    let st6 : St := { st5 with scrollY := 0 }
    let tr6 := tr5 ++ [Effect.scrollTop, Effect.entranceAnim viewId]
    -- line 44: `if (viewId === 'about') animateBadge()`
    let tr7 := if viewId == "about" then tr6 ++ [Effect.badgeAnim] else tr6
    -- line 47
    (st6, tr7 ++ [Effect.refreshTriggers])
  else
    (st2, tr2)

/-- Helper for `stripHash`: drop the first `'#'` of a character list, the rest
unchanged. -/
def stripHashAux : List Char → List Char
  | [] => []
  | c :: cs => if c = '#' then cs else c :: stripHashAux cs

/-- `hash.replace('#', '')` (src/script.js line 189): JavaScript
`String.replace` with a string pattern replaces only the first occurrence. -/
def stripHash (s : String) : String := String.mk (stripHashAux s.data)

/-- The `DOMContentLoaded` listener (src/script.js lines 184-197): read the
location hash, show the named view when it exists, otherwise show `home`.
`hash` is the raw `window.location.hash` value (`""` or `"#..."`). -/
def onDomContentLoaded (pg : Page) (hash : String) (st : St) : St × List Effect :=
  let currentHash := stripHash hash
  if currentHash != "" && pg.views.contains currentHash then
    showView pg currentHash st
  else
    showView pg "home" st

/-- First wrapper of `showView` (src/script.js lines 328-333): run the
original, then schedule `initRefinedInteractions` after a 100 ms delay.
The second component lists the scheduled callbacks as (name, delay ms). -/
def showViewW1 (pg : Page) (viewId : String) (st : St) :
    (St × List Effect) × List (String × Nat) :=
  (showView pg viewId st, [("initRefinedInteractions", 100)])

/-- Second wrapper of `showView` (src/script.js lines 786-793): run the
previously wrapped function, then schedule `initProjectsSlider` after 100 ms
only when the target view is `projects`.  This is the `showView` binding in
effect after the whole script has run. -/
def showViewW2 (pg : Page) (viewId : String) (st : St) :
    (St × List Effect) × List (String × Nat) :=
  let r := showViewW1 pg viewId st
  if viewId == "projects" then (r.1, r.2 ++ [("initProjectsSlider", 100)])
  else r

/-- Written from the words of spec section 4.1: the order of effects of one
successful `activateView` call — (1) deactivate every other view and nav
indicator, (2) mark the target view and (if present) its indicator active,
(3) replace the fragment, (4) reset scroll, (5) entrance animation, (6) the
transition hook registered for the identifier (the badge animation, for
`about`), (7) scroll-trigger recalculation.  To be compared against the trace
produced by `showView`. -/
def specTransitionOrder (pg : Page) (id : String) : List Effect :=
  [Effect.deactivateViews, Effect.deactivateNavs, Effect.activateView id]
    ++ (if pg.navLinks.contains id then [Effect.activateNav id] else [])
    ++ [Effect.replaceHash id, Effect.scrollTop, Effect.entranceAnim id]
    ++ (if id == "about" then [Effect.badgeAnim] else [])
    ++ [Effect.refreshTriggers]

/-- Folding `showView` over a list of navigation intents. -/
def showViewSeq (pg : Page) (ids : List String) (st : St) : St :=
  ids.foldl (fun s i => (showView pg i s).1) st

/-- The state the projects slider mutates (src/script.js lines 692-779):
`idx` is the module-level `currentProjectIndex` (a JavaScript number, so
modelled as an unbounded integer); the remaining fields are what
`updateSlider` writes — the track's animated x offset, which slide carries
class `active`, and whether each arrow button accepts pointer events. -/
structure Slider where
  idx : Int
  trackX : Int
  activeSlide : Option Int
  prevEnabled : Bool
  nextEnabled : Bool
deriving DecidableEq

/-- `updateSlider` (src/script.js lines 708-733): move the track by
`idx * (slideWidth + 30)`, mark slide `idx` active, and disable the prev
button at index 0 and the next button at index `numSlides - 1`. -/
def updateSlider (numSlides slideWidth : Int) (s : Slider) : Slider :=
  { s with
    trackX := -(s.idx * (slideWidth + 30)),
    activeSlide := some s.idx,
    prevEnabled := s.idx != 0,
    nextEnabled := s.idx != numSlides - 1 }

/-- The next-button click handler (src/script.js lines 735-740). -/
def nextClick (numSlides slideWidth : Int) (s : Slider) : Slider :=
  if s.idx < numSlides - 1 then
    updateSlider numSlides slideWidth { s with idx := s.idx + 1 }
  else s

/-- The prev-button click handler (src/script.js lines 742-747). -/
def prevClick (numSlides slideWidth : Int) (s : Slider) : Slider :=
  if s.idx > 0 then
    updateSlider numSlides slideWidth { s with idx := s.idx - 1 }
  else s

/-- The `touchend` drag handler (src/script.js lines 758-772): when the drag
distance exceeds 50 px, step forward or back subject to the same bounds as
the buttons, then refresh the slider. -/
def touchEnd (numSlides slideWidth startX endX : Int) (s : Slider) : Slider :=
  let diff := startX - endX
  if diff.natAbs > 50 then
    let s' :=
      if diff > 0 ∧ s.idx < numSlides - 1 then { s with idx := s.idx + 1 }
      else if diff < 0 ∧ s.idx > 0 then { s with idx := s.idx - 1 }
      else s
    updateSlider numSlides slideWidth s'
  else s

/-- One user interaction with the slider. -/
inductive SliderOp where
  | next
  | prev
  | drag (startX endX : Int)

/-- Dispatch one slider interaction to its handler. -/
def applySliderOp (numSlides slideWidth : Int) (s : Slider) : SliderOp → Slider
  | SliderOp.next => nextClick numSlides slideWidth s
  | SliderOp.prev => prevClick numSlides slideWidth s
  | SliderOp.drag a b => touchEnd numSlides slideWidth a b s

/-- A whole sequence of slider interactions. -/
def applySliderOps (numSlides slideWidth : Int) (ops : List SliderOp) (s : Slider) : Slider :=
  ops.foldl (applySliderOp numSlides slideWidth) s

/-- `initProjectsSlider` (src/script.js lines 694-779) as a state transformer:
it returns early when the track is missing or there are no slides; otherwise
it rebinds the button/touch handlers and calls `updateSlider()` once.  It
never assigns `currentProjectIndex`. -/
def initProjectsSlider (hasTrack : Bool) (numSlides : Nat) (slideWidth : Int)
    (s : Slider) : Slider :=
  if hasTrack && numSlides != 0 then updateSlider (numSlides : Int) slideWidth s
  else s

/-- One observable effect of the contact-form submit handler
(src/script.js lines 629-643). -/
inductive SubmitEffect where
  /-- line 631: `e.preventDefault()` -/
  | preventDefault
  /-- line 637: `showMessageModal()` adds class `active` to `#message-modal` -/
  | showSuccessModal
  /-- line 638: `this.reset()` -/
  | formReset
  /-- line 641: `showErrorModal()` adds class `active` to `#error-modal` -/
  | showErrorModal
deriving DecidableEq

/-- The contact-form submit handler (src/script.js lines 629-643):
`preventDefault` first, then `emailjs.sendForm(...)`, whose promise settles
either fulfilled (`sendSucceeds = true`: success modal shown, form reset) or
rejected (`sendSucceeds = false`: error modal shown). -/
def contactSubmitHandler (sendSucceeds : Bool) : List SubmitEffect :=
  [SubmitEffect.preventDefault]
    ++ (if sendSucceeds then [SubmitEffect.showSuccessModal, SubmitEffect.formReset]
        else [SubmitEffect.showErrorModal])

/-- Which DOM elements the page offers to the top-level script (for the
feature-independence analysis of the initialization sequence). -/
structure PageElems where
  hasLoaderProgress : Bool
  hasPreloader : Bool
  hasHeroSection : Bool
  hasPreviewContainer : Bool
  hasPreviewImg : Bool
  hasMenuTrigger : Bool
  hasContactForm : Bool
deriving DecidableEq

/-- The top-level statements of src/script.js that set a feature up, in
source order.  Each either guards on its own elements (exiting early when
they are missing) or accesses an element without a guard. -/
inductive Step where
  /-- line 182: `initPreloader()` — guarded (line 63) -/
  | initPreloaderCall
  /-- line 184: register the `DOMContentLoaded` listener -/
  | domLoadedListenerReg
  /-- lines 212-242: hero `mousemove` handler — guarded (line 212) -/
  | heroMousemoveReg
  /-- line 336: `initRefinedInteractions()` — iterates a possibly empty list -/
  | refinedInteractionsInit
  /-- line 396: register the scroll listener -/
  | scrollListenerReg
  /-- lines 565-579: menu preview hover handlers — guarded (line 565) -/
  | previewHoverReg
  /-- line 608: `menuTrigger.addEventListener(...)` — UNGUARDED -/
  | menuTriggerClickReg
  /-- line 622: `emailjs.init(...)` -/
  | emailjsInit
  /-- line 629: `document.getElementById('contact-form').addEventListener(...)` — UNGUARDED -/
  | contactSubmitReg
  /-- line 782: register the `load` listener that calls `initProjectsSlider` -/
  | loadSliderListenerReg
  /-- lines 787-793: reassign `showView` to the second wrapper -/
  | sliderWrapperReassign
deriving DecidableEq

/-- The top-level script in source order. -/
def scriptSteps : List Step :=
  [Step.initPreloaderCall, Step.domLoadedListenerReg, Step.heroMousemoveReg,
   Step.refinedInteractionsInit, Step.scrollListenerReg, Step.previewHoverReg,
   Step.menuTriggerClickReg, Step.emailjsInit, Step.contactSubmitReg,
   Step.loadSliderListenerReg, Step.sliderWrapperReassign]

/-- Whether a step throws a `TypeError` on this page: it does exactly when it
dereferences a missing element with no guard.  `menuTrigger.addEventListener`
(line 608) and `document.getElementById('contact-form').addEventListener`
(line 629) are the two unguarded dereferences; every other step either guards
on its elements or touches none at initialization time. -/
def stepThrows (pg : PageElems) : Step → Bool
  | Step.menuTriggerClickReg => !pg.hasMenuTrigger
  | Step.contactSubmitReg => !pg.hasContactForm
  | _ => false

/-- Run a list of top-level steps: a thrown `TypeError` aborts the rest of the
script.  Returns the steps that completed and the step that threw, if any. -/
def runSteps (pg : PageElems) : List Step → List Step × Option Step
  | [] => ([], none)
  | s :: rest =>
    if stepThrows pg s then ([], some s)
    else
      let r := runSteps pg rest
      (s :: r.1, r.2)

/-- Execute the whole top-level script against a page. -/
def runScript (pg : PageElems) : List Step × Option Step :=
  runSteps pg scriptSteps

/-- The page of the actual site: views home, projects, photos, about, contact
(src/script.js line 17), each with a matching nav link. -/
def pg0 : Page :=
  { views := ["home", "projects", "photos", "about", "contact"],
    navLinks := ["home", "projects", "photos", "about", "contact"] }

/-- A state in which `home` is the active view and the only history entry. -/
def st0 : St :=
  { activeViews := ["home"], activeNavs := ["home"],
    history := [some "home"], scrollY := 0 }

/-- Auxiliary slider states and interaction sequences used as concrete
inputs. -/
def sW0 : Slider :=
  { idx := 0, trackX := 0, activeSlide := none, prevEnabled := false, nextEnabled := false }

/-- A slider state whose current index is 2 (third slide selected). -/
def sWit : Slider :=
  { idx := 2, trackX := 0, activeSlide := none, prevEnabled := true, nextEnabled := true }

/-- A concrete interaction sequence: three advances, a forward drag, a
backward drag, one retreat. -/
def opsW : List SliderOp :=
  [SliderOp.next, SliderOp.next, SliderOp.next,
   SliderOp.drag 200 0, SliderOp.drag 0 200, SliderOp.prev]

/-- A page providing every element the script dereferences. -/
def pgAll : PageElems :=
  { hasLoaderProgress := true, hasPreloader := true, hasHeroSection := true,
    hasPreviewContainer := true, hasPreviewImg := true, hasMenuTrigger := true,
    hasContactForm := true }

/-- The same page with the contact form element removed. -/
def pgNoContact : PageElems :=
  { hasLoaderProgress := true, hasPreloader := true, hasHeroSection := true,
    hasPreviewContainer := true, hasPreviewImg := true, hasMenuTrigger := true,
    hasContactForm := false }

/-! ## Helper lemmas about `showView` -/

/-- A successful `showView` leaves exactly the target in the active-view set. -/
theorem showView_activeViews_of_mem (pg : Page) (viewId : String) (st : St)
    (h : viewId ∈ pg.views) :
    (showView pg viewId st).1.activeViews = [viewId] := by
  by_cases hn : viewId ∈ pg.navLinks <;> simp [showView, h, hn]

/-- A successful `showView` replaces the current history entry with the new
fragment and keeps the rest of the stack. -/
theorem showView_history_of_mem (pg : Page) (viewId : String) (st : St)
    (h : viewId ∈ pg.views) :
    (showView pg viewId st).1.history = some viewId :: st.history.tail := by
  by_cases hn : viewId ∈ pg.navLinks <;> simp [showView, h, hn]

/-- `onDomContentLoaded` unfolded (definitional). -/
theorem onDomContentLoaded_eq_showView (pg : Page) (hash : String) (st : St) :
    onDomContentLoaded pg hash st =
      if stripHash hash != "" && pg.views.contains (stripHash hash) then
        showView pg (stripHash hash) st
      else showView pg "home" st := rfl

/-- Folding over a cons peels one `showView` call. -/
theorem showViewSeq_cons (pg : Page) (a : String) (l : List String) (st : St) :
    showViewSeq pg (a :: l) st = showViewSeq pg l (showView pg a st).1 := rfl

/-- After any nonempty sequence of successful transitions the history stack is
the last fragment on top of the original stack's tail. -/
theorem showViewSeq_history (pg : Page) (ids : List String) (lastId : String)
    (hAll : ∀ id ∈ ids, id ∈ pg.views)
    (hLast : ids.getLast? = some lastId) :
    ∀ st : St, (showViewSeq pg ids st).history = some lastId :: st.history.tail := by
  induction ids with
  | nil => simp at hLast
  | cons a rest ih =>
    intro st
    have ha : a ∈ pg.views := hAll a (List.mem_cons_self a rest)
    cases rest with
    | nil =>
      have : a = lastId := by simpa using hLast
      subst this
      simpa [showViewSeq] using showView_history_of_mem pg a st ha
    | cons b rest' =>
      have hAll' : ∀ id ∈ b :: rest', id ∈ pg.views :=
        fun id hm => hAll id (List.mem_cons_of_mem a hm)
      have hLast' : (b :: rest').getLast? = some lastId := by
        simpa [List.getLast?_cons_cons] using hLast
      rw [showViewSeq_cons, ih hAll' hLast' (showView pg a st).1,
        showView_history_of_mem pg a st ha]
      rfl

/-- `.replace('#','')` on `'#' ++ f` yields `f`. -/
theorem stripHash_hash_append (f : String) : stripHash ("#" ++ f) = f := by
  cases f with
  | mk data => rfl

/-! ## C1 — unknown identifier -/

/-- Claim C1 (counterexample): the claim says a `showView` call with an
unknown identifier leaves the currently active view active.  On the real page
with `home` active, `showView('bogus')` leaves NO view active: the
deactivation sweeps of lines 21-22 run before the existence check. -/
theorem c1_counterexample :
    pg0.views.contains "bogus" = false ∧
    st0.activeViews = ["home"] ∧ st0.activeNavs = ["home"] ∧
    (showView pg0 "bogus" st0).1.activeViews = [] ∧
    (showView pg0 "bogus" st0).1.activeNavs = [] := by decide

/-- Claim C1 (amended): a call with an unknown identifier removes the active
mark from every view and every navigation indicator and does nothing else —
history, scroll are untouched, no error is surfaced, and the only effects
issued are the two deactivation sweeps.  The previously active view does not
stay active; afterwards no view is active. -/
theorem c1_amended_unknown_clears_active (pg : Page) (viewId : String) (st : St)
    (h : viewId ∉ pg.views) :
    (showView pg viewId st).1 = { st with activeViews := [], activeNavs := [] } ∧
    (showView pg viewId st).2 = [Effect.deactivateViews, Effect.deactivateNavs] := by
  simp [showView, h]

/-- Claim C1 witness: the amended statement evaluated at the concrete page. -/
theorem c1_witness :
    (showView pg0 "bogus" st0).1 = { st0 with activeViews := [], activeNavs := [] } ∧
    (showView pg0 "bogus" st0).2 = [Effect.deactivateViews, Effect.deactivateNavs] :=
  c1_amended_unknown_clears_active pg0 "bogus" st0 (by decide)

/-! ## C2 — known identifier activates exactly one view -/

/-- Claim C2: for a known identifier, after `showView` exactly one view is
marked active and its identifier is the argument. -/
theorem c2_known_id_unique_active (pg : Page) (viewId : String) (st : St)
    (h : viewId ∈ pg.views) :
    (showView pg viewId st).1.activeViews = [viewId] :=
  showView_activeViews_of_mem pg viewId st h

/-- Claim C2 witness: concrete evaluation at view `photos`. -/
theorem c2_witness : (showView pg0 "photos" st0).1.activeViews = ["photos"] :=
  c2_known_id_unique_active pg0 "photos" st0 (by decide)

/-! ## C3 — replace semantics for the address-bar fragment -/

/-- Claim C3: every successful transition writes the target's fragment with
replace semantics: after any nonempty sequence of successful transitions the
top history entry is the last target's fragment, the rest of the stack is
exactly what was below the original entry (so back navigation lands on the
page prior to the first transition), and the stack length is unchanged. -/
theorem c3_replace_semantics (pg : Page) (ids : List String) (lastId : String) (st : St)
    (hAll : ∀ id ∈ ids, id ∈ pg.views)
    (hLast : ids.getLast? = some lastId)
    (hne : st.history ≠ []) :
    (showViewSeq pg ids st).history = some lastId :: st.history.tail ∧
    (showViewSeq pg ids st).history.length = st.history.length := by
  have h := showViewSeq_history pg ids lastId hAll hLast st
  refine ⟨h, ?_⟩
  obtain ⟨x, xs, hx⟩ := List.exists_cons_of_ne_nil hne
  rw [h, hx]
  simp

/-- Claim C3 witness: two successive transitions on the concrete page. -/
theorem c3_witness :
    (showViewSeq pg0 ["about", "contact"] st0).history = some "contact" :: st0.history.tail ∧
    (showViewSeq pg0 ["about", "contact"] st0).history.length = st0.history.length :=
  c3_replace_semantics pg0 ["about", "contact"] "contact" st0 (by decide) (by decide)
    (by decide)

/-! ## C4 — effect order of one successful transition -/

/-- Claim C4: within one successful `showView` call, the trace of issued
effects is exactly the order of spec section 4.1 — deactivation sweeps, target
view then (if present) its indicator activated, fragment replaced, scroll
reset, entrance animation, then (for `about`) the registered transition hook,
then scroll-trigger recalculation. -/
theorem c4_effect_order (pg : Page) (viewId : String) (st : St)
    (h : viewId ∈ pg.views) :
    (showView pg viewId st).2 = specTransitionOrder pg viewId := by
  by_cases hn : viewId ∈ pg.navLinks <;> by_cases ha : viewId = "about" <;>
    simp_all [showView, specTransitionOrder]

/-- Claim C4 witness: the trace of the transition into `about` on the
concrete page. -/
theorem c4_witness : (showView pg0 "about" st0).2 = specTransitionOrder pg0 "about" :=
  c4_effect_order pg0 "about" st0 (by decide)

/-! ## C5 — startup behavior -/

/-- Claim C5: on `DOMContentLoaded`, a fragment naming a known view activates
that view; an empty fragment or one naming an unknown view activates the
default view `home`. -/
theorem c5_initial_load (pg : Page) (f : String) (st : St)
    (hHome : "home" ∈ pg.views) :
    (f ≠ "" → f ∈ pg.views →
      (onDomContentLoaded pg ("#" ++ f) st).1.activeViews = [f]) ∧
    (onDomContentLoaded pg "" st).1.activeViews = ["home"] ∧
    (f ∉ pg.views →
      (onDomContentLoaded pg ("#" ++ f) st).1.activeViews = ["home"]) := by
  refine ⟨?_, ?_, ?_⟩
  · intro h1 h2
    rw [onDomContentLoaded_eq_showView, stripHash_hash_append]
    rw [if_pos]
    · exact showView_activeViews_of_mem pg f st h2
    · simp [h1, h2]
  · rw [onDomContentLoaded_eq_showView]
    rw [if_neg]
    · exact showView_activeViews_of_mem pg "home" st hHome
    · have hfalse : (stripHash "" != "") = false := by decide
      simp [hfalse]
  · intro h
    rw [onDomContentLoaded_eq_showView, stripHash_hash_append]
    rw [if_neg]
    · exact showView_activeViews_of_mem pg "home" st hHome
    · simp [h]

/-- Claim C5 witness: loading with fragment `#about` activates `about`. -/
theorem c5_witness :
    (onDomContentLoaded pg0 ("#" ++ "about") st0).1.activeViews = ["about"] :=
  (c5_initial_load pg0 "about" st0 (by decide)).1 (by decide) (by decide)

/-! ## C6 — post-transition setup scheduling -/

/-- Claim C6 (counterexample): the claim says that after every transition all
registered post-transition setup routines — the magnetic-hover rebinding AND
the carousel initialization — run regardless of which view was entered.  On
the concrete page, the (successful) transition into `about` schedules only
the hover rebinding: the second wrapper schedules `initProjectsSlider` only
for the `projects` view. -/
theorem c6_counterexample :
    pg0.views.contains "about" = true ∧
    (showViewW2 pg0 "about" st0).2 = [("initRefinedInteractions", 100)] := by decide

/-- Claim C6 (amended): after every transition the wrapped `showView`
schedules the magnetic-hover rebinding (`initRefinedInteractions`) after the
fixed 100 ms delay, unconditionally; the carousel initialization
(`initProjectsSlider`) is scheduled — also after 100 ms — only when the
entered view is `projects`. -/
theorem c6_amended_scheduling (pg : Page) (viewId : String) (st : St) :
    (showViewW2 pg viewId st).2.head? = some ("initRefinedInteractions", 100) ∧
    (showViewW2 pg viewId st).2.count ("initProjectsSlider", 100) =
      if viewId = "projects" then 1 else 0 := by
  by_cases hp : viewId = "projects" <;>
    simp [showViewW2, showViewW1, hp, List.count_cons]

/-! ## C7 — slider index bounds -/

/-- Every single slider interaction keeps the index inside `[0, numSlides)`. -/
theorem sliderOp_idx_bounds (numSlides slideWidth : Int) (op : SliderOp) (s : Slider)
    (h0 : 0 ≤ s.idx) (h1 : s.idx < numSlides) :
    0 ≤ (applySliderOp numSlides slideWidth s op).idx ∧
      (applySliderOp numSlides slideWidth s op).idx < numSlides := by
  cases op <;>
    simp only [applySliderOp, nextClick, prevClick, touchEnd, updateSlider] <;>
    split_ifs <;> simp_all <;> omega

/-- Any sequence of slider interactions keeps the index inside
`[0, numSlides)`. -/
theorem sliderOps_idx_bounds (numSlides slideWidth : Int) (ops : List SliderOp) (s : Slider)
    (h0 : 0 ≤ s.idx) (h1 : s.idx < numSlides) :
    0 ≤ (applySliderOps numSlides slideWidth ops s).idx ∧
      (applySliderOps numSlides slideWidth ops s).idx < numSlides := by
  induction ops generalizing s with
  | nil => exact ⟨h0, h1⟩
  | cons op rest ih =>
    have h := sliderOp_idx_bounds numSlides slideWidth op s h0 h1
    exact ih (applySliderOp numSlides slideWidth s op) h.1 h.2

/-- Claim C7: starting from an in-range index, every sequence of next/prev
clicks and drag gestures keeps `currentProjectIndex` in `[0, numSlides)`;
moreover the prev handler is inert (the whole state unchanged) at index 0 and
the next handler is inert at the last index — clamping, not wraparound. -/
theorem c7_slider_bounds (numSlides slideWidth : Int) (ops : List SliderOp) (s : Slider)
    (h0 : 0 ≤ s.idx) (h1 : s.idx < numSlides) :
    (0 ≤ (applySliderOps numSlides slideWidth ops s).idx ∧
      (applySliderOps numSlides slideWidth ops s).idx < numSlides) ∧
    (s.idx = 0 → prevClick numSlides slideWidth s = s) ∧
    (s.idx = numSlides - 1 → nextClick numSlides slideWidth s = s) := by
  refine ⟨sliderOps_idx_bounds numSlides slideWidth ops s h0 h1, ?_, ?_⟩
  · intro hz
    rw [prevClick, if_neg]
    omega
  · intro hl
    rw [nextClick, if_neg]
    omega

/-- Claim C7 witness: a concrete interaction sequence on a 3-slide carousel,
starting at index 0. -/
theorem c7_witness :
    0 ≤ (applySliderOps 3 100 opsW sW0).idx ∧ (applySliderOps 3 100 opsW sW0).idx < 3 :=
  (c7_slider_bounds 3 100 opsW sW0 (by decide) (by decide)).1

/-! ## C8 — contact form submission -/

/-- Claim C8: on every submission attempt the browser default is suppressed
first, and exactly one of the success indicator and the error indicator is
shown — their counts in the effect trace sum to one, whichever way the send
promise settles. -/
theorem c8_submit_exactly_one (sendSucceeds : Bool) :
    (contactSubmitHandler sendSucceeds).head? = some SubmitEffect.preventDefault ∧
    (contactSubmitHandler sendSucceeds).count SubmitEffect.showSuccessModal
      + (contactSubmitHandler sendSucceeds).count SubmitEffect.showErrorModal = 1 := by
  cases sendSucceeds <;> decide

/-! ## C9 — feature guards and independence -/

/-- Claim C9 (counterexample): the claim says every feature guards on its own
elements and a failure in one feature cannot prevent another from working.
On a page missing only the contact form, the top-level script throws at the
unguarded `document.getElementById('contact-form').addEventListener` call
(line 629), so the projects-slider `load` registration and the second
`showView` wrapper — features whose own elements are all present — never
run. -/
theorem c9_counterexample :
    pgNoContact.hasContactForm = false ∧
    runScript pgNoContact =
      ([Step.initPreloaderCall, Step.domLoadedListenerReg, Step.heroMousemoveReg,
        Step.refinedInteractionsInit, Step.scrollListenerReg, Step.previewHoverReg,
        Step.menuTriggerClickReg, Step.emailjsInit], some Step.contactSubmitReg) := by
  decide

/-- Claim C9 (amended): the guarded features do exit early without effect and
never throw, but the mobile-menu trigger registration (line 608) and the
contact-form registration (line 629) dereference their elements unguarded.
With the menu trigger present and the contact form absent, the script throws
at the contact-form registration and every later feature initialization —
including the slider's — is lost; with both unguarded elements present the
whole script completes regardless of every other element's presence. -/
theorem c9_amended_guard_gaps (pg pg2 : PageElems)
    (hm : pg.hasMenuTrigger = true) (hc : pg.hasContactForm = false)
    (hm2 : pg2.hasMenuTrigger = true) (hc2 : pg2.hasContactForm = true) :
    (runScript pg).2 = some Step.contactSubmitReg ∧
    (runScript pg).1 =
      [Step.initPreloaderCall, Step.domLoadedListenerReg, Step.heroMousemoveReg,
       Step.refinedInteractionsInit, Step.scrollListenerReg, Step.previewHoverReg,
       Step.menuTriggerClickReg, Step.emailjsInit] ∧
    runScript pg2 = (scriptSteps, none) := by
  refine ⟨?_, ?_, ?_⟩ <;>
    simp [runScript, runSteps, scriptSteps, stepThrows, hm, hc, hm2, hc2]

/-- Claim C9 witness: the amended statement at the two concrete pages. -/
theorem c9_witness :
    (runScript pgNoContact).2 = some Step.contactSubmitReg ∧
    runScript pgAll = (scriptSteps, none) :=
  ⟨(c9_amended_guard_gaps pgNoContact pgAll rfl rfl rfl rfl).1,
   (c9_amended_guard_gaps pgNoContact pgAll rfl rfl rfl rfl).2.2⟩

/-! ## C10 — re-initialization preserves the slider index -/

/-- Claim C10: `initProjectsSlider` never writes `currentProjectIndex`: the
index survives re-initialization unchanged (it is not reset to 0), and when
the guard passes the initial `updateSlider()` call marks exactly the
previously selected slide active. -/
theorem c10_init_preserves_index (hasTrack : Bool) (numSlides : Nat) (slideWidth : Int)
    (s : Slider) :
    (initProjectsSlider hasTrack numSlides slideWidth s).idx = s.idx ∧
    (hasTrack = true → numSlides ≠ 0 →
      (initProjectsSlider hasTrack numSlides slideWidth s).activeSlide = some s.idx) := by
  constructor
  · rw [initProjectsSlider]
    split <;> simp [updateSlider]
  · intro h1 h2
    rw [initProjectsSlider, if_pos]
    · simp [updateSlider]
    · simp [h1, h2]

/-- Claim C10 witness: re-initializing with the third slide selected keeps
index 2 and marks slide 2 active. -/
theorem c10_witness :
    (initProjectsSlider true 3 100 sWit).idx = sWit.idx ∧
    (initProjectsSlider true 3 100 sWit).activeSlide = some sWit.idx :=
  ⟨(c10_init_preserves_index true 3 100 sWit).1,
   (c10_init_preserves_index true 3 100 sWit).2 rfl (by decide)⟩

end Portfolio
